import Mathlib

/-!
Verification of the Match Masters analytics dashboard (src/main.py).

The development shallowly embeds the program's data model and operations:
the warehouse is a list of event rows, the two SQL query templates become
Lean functions over that list, the pandas transforms become functions on a
small table type, and the two Streamlit tab handlers become functions
returning view values (with `Except` modelling Python exceptions).
-/

namespace MatchMasters

/-- A calendar date, as produced by the UI date inputs and by
`DATE(derived_tstamp)` in the warehouse. -/
structure Date where
  year : Nat
  month : Nat
  day : Nat
deriving DecidableEq, Repr, Inhabited

/-- Chronological comparison of dates (lexicographic on year, month, day);
this is the order the warehouse uses for `BETWEEN '{start_date}' AND
'{end_date}'` and for `ORDER BY purchase_date`. -/
def Date.le (a b : Date) : Bool :=
  decide (a.year < b.year) ||
    (decide (a.year = b.year) &&
      (decide (a.month < b.month) ||
        (decide (a.month = b.month) && decide (a.day ≤ b.day))))

/-- Two-digit zero padding, as in strftime. -/
def pad2 (n : Nat) : String :=
  if n < 10 then "0" ++ toString n else toString n

/-- Models `pd.to_datetime(col).dt.strftime('%Y-%m-%d')` applied to a date
(line 177 of src/main.py). -/
def Date.iso (d : Date) : String :=
  toString d.year ++ "-" ++ pad2 d.month ++ "-" ++ pad2 d.day

/-- A scalar JSON literal inside a purchase payload.  Payload objects are
modelled as flat objects of scalar fields; nesting never matters to the
flattening logic, which only looks at top-level keys. -/
inductive JLit where
  | str (s : String)
  | num (q : Rat)
  | boolean (b : Bool)
  | jnull
deriving DecidableEq, Repr

/-- A decoded purchase payload: association list of top-level JSON fields,
as produced by `json.loads` (keys unique, insertion order kept). -/
abbrev Payload := List (String × JLit)

/-- The raw text of the `purchase_data` column together with its parse
outcome.  We do not embed a character-level JSON parser; a value of this
type records whether `json.loads` would succeed on the text, which is the
only fact line 163 of src/main.py depends on.  `empty` is a falsy value
(empty string / None), on which the source skips parsing. -/
inductive PayloadText where
  | empty
  | wellFormed (fields : Payload)
  | malformed (raw : String)
deriving DecidableEq, Repr, Inhabited

/-- One element of the array-valued context column
`CONTEXTS_IO_CANDIVORE_USER_BASE_STATS_1`: the fields the queries read. -/
structure ContextEntry where
  uuid : String
  user_name : String
deriving DecidableEq, Repr

/-- One warehouse event row, restricted to the columns the two query
templates read.  `contexts = none` models a SQL NULL context column. -/
structure Event where
  geo_city : String
  derived_tstamp : Date
  event_name : String
  contexts : Option (List ContextEntry)
  purchase_event : Option PayloadText
deriving DecidableEq, Repr

/-- The scalar `CONTEXTS_IO_CANDIVORE_USER_BASE_STATS_1:uuid::string`
extraction of the city-statistics query.  The exact warehouse semantics of
this nested extraction is schema-specific (spec section 9 open question);
we model it as the uuid of the first context entry, if any.  No claim
depends on which entry is chosen. -/
def uuidOf (e : Event) : Option String :=
  e.contexts.bind (fun l => l.head?.map ContextEntry.uuid)

/-- One row of the city-statistics result set. -/
structure CityStats where
  city : String
  number_of_users : Nat
  number_of_purchases : Nat
deriving DecidableEq, Repr

/-- Distinct values of a list in first-seen order, threading the set of
values already seen. -/
def firstSeenAux {α : Type} [DecidableEq α] (seen : List α) : List α → List α
  | [] => []
  | a :: as =>
      if a ∈ seen then firstSeenAux seen as
      else a :: firstSeenAux (a :: seen) as

/-- Distinct values of a list, keeping the first occurrence of each value
in order (SQL DISTINCT / GROUP BY keys; also the spec's "first-seen order"
for flattened columns). -/
def firstSeen {α : Type} [DecidableEq α] (l : List α) : List α :=
  firstSeenAux [] l

/-- Insert into a list sorted descending by `number_of_users`, keeping the
inserted element before equal keys (stable). -/
def insertDesc (x : CityStats) : List CityStats → List CityStats
  | [] => [x]
  | y :: ys =>
      if y.number_of_users ≤ x.number_of_users then x :: y :: ys
      else y :: insertDesc x ys

/-- Stable sort, descending by `number_of_users`: the semantics of
`ORDER BY number_of_users DESC` and of pandas `nlargest(keep='first')`. -/
def sortByUsersDesc : List CityStats → List CityStats
  | [] => []
  | x :: xs => insertDesc x (sortByUsersDesc xs)

/-- The WHERE clause of the city-statistics query (lines 49-51 of
src/main.py): timestamp between the two dates inclusive, context column
not NULL. -/
def cityFilter (sd ed : Date) (e : Event) : Bool :=
  Date.le sd e.derived_tstamp && Date.le e.derived_tstamp ed && e.contexts.isSome

/-- GROUP BY GEO_CITY with its two aggregates (lines 43-53 of src/main.py):
per city, COUNT(DISTINCT uuid) over non-null extracted uuids, and the
count of rows whose event name is the literal 'in_app_purchase'. -/
def cityGroups (events : List Event) (sd ed : Date) : List CityStats :=
  let fl := events.filter (cityFilter sd ed)
  (firstSeen (fl.map Event.geo_city)).map (fun c =>
    let grp := fl.filter (fun e => e.geo_city == c)
    { city := c,
      number_of_users := (firstSeen (grp.filterMap uuidOf)).length,
      number_of_purchases := (grp.filter (fun e => e.event_name == "in_app_purchase")).length })

/-- The city-statistics query `load_data` (lines 40-59 of src/main.py):
filter, group, ORDER BY number_of_users DESC, LIMIT 10. -/
def load_data (events : List Event) (sd ed : Date) : List CityStats :=
  (sortByUsersDesc (cityGroups events sd ed)).take 10

/-- pandas `df.nlargest(n, 'number_of_users')` (line 91 of src/main.py):
sort descending by the column, stably, and keep the first n rows. -/
def nlargestUsers (n : Nat) (df : List CityStats) : List CityStats :=
  (sortByUsersDesc df).take n

/-- The warehouse connection object (SQLAlchemy engine).  Besides the
event rows it can reach, it records whether executing a query against it
raises (connection loss, auth failure, timeout): when `failure` is set,
every `pd.read_sql` call on this engine raises with that message. -/
structure Engine where
  events : List Event
  failure : Option String
deriving DecidableEq, Repr

/-- `pd.read_sql` of the city-statistics query (line 59 of src/main.py):
either raises the engine's failure or returns the query result. -/
def read_sql_city (eng : Engine) (sd ed : Date) : Except String (List CityStats) :=
  match eng.failure with
  | some m => Except.error m
  | none => Except.ok (load_data eng.events sd ed)

/-- What the General Statistics tab renders after Run is pressed. -/
inductive GeneralView where
  | noData
  | charts (data : List CityStats) (top10 : List CityStats)
deriving DecidableEq, Repr

/-- The body of the General Statistics Run handler (lines 78-113 of
src/main.py).  There is no try/except around `load_data` there, so a query
error is an uncaught exception escaping `main`, modelled as the `.error`
case of the result.  The scatter chart and the correlation heatmap/metric
are floating-point presentation of the same `data` and are elided; the
bar chart input is the `nlargest` recomputation of line 91. -/
def tab1Run (eng : Engine) (sd ed : Date) : Except String GeneralView :=
  (read_sql_city eng sd ed).map (fun data =>
    if data.isEmpty then GeneralView.noData
    else GeneralView.charts data (nlargestUsers 10 data))

/-- One row of the user-purchase query result (lines 123-140 of
src/main.py). -/
structure UserPurchaseRow where
  purchase_date : Date
  user_name : String
  purchase_data : PayloadText
  daily_purchase_amount : Rat
deriving DecidableEq, Repr, Inhabited

/-- The `UNSTRUCT_EVENT_IO_CANDIVORE_IN_APP_PURCHASE_1:iap_price::float`
extraction: the numeric `iap_price` field of the payload, NULL when the
payload has no such numeric field. -/
def iapPrice : PayloadText → Option Rat
  | PayloadText.wellFormed fs =>
      match fs.lookup "iap_price" with
      | some (JLit.num q) => some q
      | _ => none
  | _ => none

/-- The GROUP BY key of the user-purchase query: (purchase date, resolved
user name, raw payload). -/
def purchaseKey (e : Event) (f : ContextEntry) : Date × String × PayloadText :=
  (e.derived_tstamp, f.user_name, e.purchase_event.getD PayloadText.empty)

/-- Insert into a list sorted ascending by `purchase_date`, after equal
keys (stable). -/
def insertAsc (x : UserPurchaseRow) : List UserPurchaseRow → List UserPurchaseRow
  | [] => [x]
  | y :: ys =>
      if Date.le y.purchase_date x.purchase_date then y :: insertAsc x ys
      else x :: y :: ys

/-- Stable sort ascending by purchase date: `ORDER BY purchase_date`. -/
def sortByDateAsc : List UserPurchaseRow → List UserPurchaseRow
  | [] => []
  | x :: xs => insertAsc x (sortByDateAsc xs)

/-- The user-purchase query (lines 123-140 of src/main.py):
LATERAL FLATTEN of the context array (one row per context entry, none for
a NULL context), WHERE on the entry's uuid, the event name literal and a
non-null payload, GROUP BY (date, user name, payload) with
SUM(iap_price) as the daily amount, ORDER BY purchase_date. -/
def fetch_user_purchases (events : List Event) (user_id : String) :
    List UserPurchaseRow :=
  let exploded := (events.map (fun e =>
    (e.contexts.getD []).map (fun f => (e, f)))).flatten
  let matched := exploded.filter (fun ef =>
    ef.2.uuid == user_id && ef.1.event_name == "in_app_purchase" &&
      ef.1.purchase_event.isSome)
  let keys := firstSeen (matched.map (fun ef => purchaseKey ef.1 ef.2))
  sortByDateAsc (keys.map (fun k =>
    let grp := matched.filter (fun ef => purchaseKey ef.1 ef.2 == k)
    { purchase_date := k.1,
      user_name := k.2.1,
      purchase_data := k.2.2,
      daily_purchase_amount :=
        (grp.map (fun ef =>
          (iapPrice (ef.1.purchase_event.getD PayloadText.empty)).getD 0)).sum }))

/-- Line 163 of src/main.py: `json.loads(x) if x else {}` on one cell.
A falsy cell maps to the empty object without parsing; a well-formed text
parses to its fields; a malformed text makes `json.loads` raise. -/
def loads_or_empty : PayloadText → Except String Payload
  | PayloadText.empty => Except.ok []
  | PayloadText.wellFormed fs => Except.ok fs
  | PayloadText.malformed raw => Except.error ("json.loads: " ++ raw)

/-- A cell of the detail DataFrame: a payload-derived JSON value, a
missing cell (NaN), a raw date from the query, or a string value. -/
inductive CellV where
  | jv (v : JLit)
  | na
  | dt (d : Date)
  | sv (s : String)
deriving DecidableEq, Repr

/-- A pandas DataFrame, restricted to what the program observes: the
ordered column list and, per row, the mapping from column name to cell. -/
structure Frame where
  columns : List String
  rows : List (List (String × CellV))
deriving DecidableEq, Repr

/-- The cell of row `i` at column `c`. -/
def Frame.cell (t : Frame) (i : Nat) (c : String) : Option CellV :=
  ((t.rows[i]?).getD []).lookup c

/-- The column list of `pd.DataFrame(list_of_dicts)` (line 166 of
src/main.py): iterate the records, appending each key not seen before. -/
def dfColumns (payloads : List Payload) : List String :=
  payloads.foldl (fun acc p =>
    p.foldl (fun a kv => if kv.1 ∈ a then a else a ++ [kv.1]) acc) []

/-- `pd.DataFrame(list_of_dicts)` (line 166 of src/main.py): the union of
keys as columns; a row's cell is its value for that key, NaN when the row
has no such key. -/
def dfFromRecords (payloads : List Payload) : Frame :=
  { columns := dfColumns payloads,
    rows := payloads.map (fun p =>
      (dfColumns payloads).map (fun c =>
        (c, match p.lookup c with
            | some v => CellV.jv v
            | none => CellV.na))) }

/-- Update one key of a row's mapping, in place when present, appended
otherwise (a DataFrame's column names are unique, so replacing the first
occurrence is replacing the occurrence). -/
def setCell : List (String × CellV) → String → CellV → List (String × CellV)
  | [], c, v => [(c, v)]
  | kv :: rest, c, v =>
      if kv.1 = c then (c, v) :: rest else kv :: setCell rest c v

/-- pandas column assignment `df[c] = series` (lines 169-170 of
src/main.py): overwrite the column when it exists, else append it at
the end (the series is index-aligned with the rows). -/
def Frame.setColumn (t : Frame) (c : String) (vals : List CellV) : Frame :=
  { columns := if c ∈ t.columns then t.columns else t.columns ++ [c],
    rows := List.zipWith (fun row v => setCell row c v) t.rows vals }

/-- pandas column selection `df[cols]` (line 174 of src/main.py); the
program only selects columns present in the frame, so the NaN default is
never used. -/
def Frame.selectCols (t : Frame) (cs : List String) : Frame :=
  { columns := cs,
    rows := t.rows.map (fun row =>
      cs.map (fun c => (c, (row.lookup c).getD CellV.na))) }

/-- Apply a function to every cell of one column (line 177 of
src/main.py). -/
def Frame.mapCol (t : Frame) (c : String) (f : CellV → CellV) : Frame :=
  { columns := t.columns,
    rows := t.rows.map (fun row =>
      row.map (fun kv => if kv.1 = c then (kv.1, f kv.2) else kv)) }

/-- `pd.to_datetime(col).dt.strftime('%Y-%m-%d')` on one cell. -/
def fmtDateCell : CellV → CellV
  | CellV.dt d => CellV.sv d.iso
  | v => v

/-- Lines 166-170 of src/main.py: the frame of the decoded payloads with
the fixed `purchase_date` and `user_name` columns assigned from the query
result. -/
def detailBase (results : List UserPurchaseRow) (payloads : List Payload) :
    Frame :=
  ((dfFromRecords payloads).setColumn "purchase_date"
      (results.map (fun r => CellV.dt r.purchase_date))).setColumn
    "user_name" (results.map (fun r => CellV.sv r.user_name))

/-- Line 173 of src/main.py: `purchase_date` and `user_name` first, then
every other column in order. -/
def detailCols (results : List UserPurchaseRow) (payloads : List Payload) :
    List String :=
  ["purchase_date", "user_name"] ++
    (detailBase results payloads).columns.filter
      (fun c => decide (c ∉ ["purchase_date", "user_name"]))

/-- The detailed-purchase DataFrame pipeline (lines 166-177 of
src/main.py): build the frame from the decoded payloads, assign the fixed
`purchase_date` and `user_name` columns from the query result, move those
two columns to the front, and format the date column. -/
def detailTable (results : List UserPurchaseRow) (payloads : List Payload) :
    Frame :=
  ((detailBase results payloads).selectCols
      (detailCols results payloads)).mapCol "purchase_date" fmtDateCell

/-- Whether one character list occurs at the start of another. -/
def chStarts : List Char → List Char → Bool
  | [], _ => true
  | _ :: _, [] => false
  | a :: as, b :: bs => a == b && chStarts as bs

/-- Whether one character list occurs inside another. -/
def chSub (pat : List Char) : List Char → Bool
  | [] => pat.isEmpty
  | c :: cs => chStarts pat (c :: cs) || chSub pat cs

/-- The predicate of line 186 of src/main.py:
`any(term in col.lower() for term in ['price', 'amount'])`; lowercasing is
applied character by character. -/
def priceLike (c : String) : Bool :=
  chSub "price".data (c.data.map Char.toLower) ||
    chSub "amount".data (c.data.map Char.toLower)

/-- Columns receiving currency formatting (line 186 of src/main.py). -/
def price_columns (cols : List String) : List String :=
  cols.filter priceLike

/-- Python `str.title()` on a word: first character upper, rest lower. -/
def wordTitle (w : String) : String :=
  match w.data with
  | [] => ""
  | c :: cs => String.mk (c.toUpper :: cs.map Char.toLower)

/-- `col.replace('_', ' ').title()` (line 189 of src/main.py). -/
def displayTitle (c : String) : String :=
  String.intercalate " " (((c.replace "_" " ").splitOn " ").map wordTitle)

/-- A value of the `column_config` dict: a plain relabel, a
`st.column_config.NumberColumn(label, format)`, or the default config of
a column absent from the dict. -/
inductive ColConfig where
  | label (s : String)
  | number (name : String) (format : String)
  | default
deriving DecidableEq, Repr

/-- Python dict update, keeping the key's position when present. -/
def dictSet (d : List (String × ColConfig)) (k : String) (v : ColConfig) :
    List (String × ColConfig) :=
  match d with
  | [] => [(k, v)]
  | kv :: rest =>
      if kv.1 = k then (k, v) :: rest else kv :: dictSet rest k v

/-- The `column_config` dict of lines 180-191 of src/main.py: relabels for
the two fixed columns, then a currency NumberColumn (d3 format "$.2f",
two fixed decimals with a dollar prefix) for every price/amount-named
column. -/
def column_config (cols : List String) : List (String × ColConfig) :=
  (price_columns cols).foldl
    (fun cfg c => dictSet cfg c (ColConfig.number (displayTitle c) "$.2f"))
    [("purchase_date", ColConfig.label "Date"),
     ("user_name", ColConfig.label "User Name")]

/-- The effective config of a column when `st.dataframe` renders the
table: the dict entry when present, the default config otherwise. -/
def configAt (cols : List String) (c : String) : ColConfig :=
  ((column_config cols).lookup c).getD ColConfig.default

/-- The number-format a config carries; `none` is default formatting. -/
def fmtOf : ColConfig → Option String
  | ColConfig.number _ f => some f
  | _ => none

/-- What the Events tab renders for one interaction. -/
inductive EventsView where
  | idle
  | notFound
  | report (user_name : String) (chart : List (Date × Rat)) (tbl : Frame)
      (config : List (String × ColConfig))
  | errorMsg (m : String)
deriving DecidableEq, Repr

/-- `pd.read_sql` of the user-purchase query (line 143 of src/main.py). -/
def read_sql_purchases (eng : Engine) (uid : String) :
    Except String (List UserPurchaseRow) :=
  match eng.failure with
  | some m => Except.error m
  | none => Except.ok (fetch_user_purchases eng.events uid)

/-- The body of the Events tab's try block (lines 123-202 of src/main.py):
run the query; on an empty result warn "No purchase data found for this
user ID."; otherwise decode the payload column, build the detail table
and its column config, and render the report (header, daily bar chart,
detail table).  Any exception escapes as `.error`. -/
def tab2Body (eng : Engine) (uid : String) : Except String EventsView := do
  let results ← read_sql_purchases eng uid
  match results with
  | [] => pure EventsView.notFound
  | r0 :: _ => do
      let payloads ← results.mapM (fun r => loads_or_empty r.purchase_data)
      pure (EventsView.report r0.user_name
        (results.map (fun r => (r.purchase_date, r.daily_purchase_amount)))
        (detailTable results payloads)
        (column_config (detailTable results payloads).columns))

/-- The whole Events tab interaction (lines 119-205 of src/main.py): no
query runs while the text input is empty; the try/except turns any
exception of the body into the `st.error` message of line 205. -/
def tab2Handler (eng : Engine) (uid : String) : EventsView :=
  if uid = "" then EventsView.idle
  else
    match tab2Body eng uid with
    | Except.ok v => v
    | Except.error e => EventsView.errorMsg ("Error executing query: " ++ e)

/-- A sample warehouse event used to instantiate hypotheses concretely. -/
def evA : Event :=
  { geo_city := "Tel Aviv", derived_tstamp := ⟨2024, 5, 6⟩,
    event_name := "in_app_purchase",
    contexts := some [⟨"u1", "alice"⟩],
    purchase_event := some (PayloadText.wellFormed [("iap_price", JLit.num 3)]) }

/-- Lines 24-38 of src/main.py.  The body builds the engine, returning
None after an st.error when construction raises; the `@st.cache_resource`
decorator memoizes the returned value for the process under Streamlit's
construct-once semantics: a call returns the cached value when one
exists, otherwise it runs the body and caches the result.  `make` is the
outcome `create_engine` would have on this call. -/
def init_connection (make : Except String Engine)
    (cache : Option (Option Engine)) :
    Option Engine × Option (Option Engine) :=
  match cache with
  | some v => (v, some v)
  | none =>
      let r := match make with
        | Except.ok e => some e
        | Except.error _ => none
      (r, some r)

/-- The values returned by a sequence of `init_connection` calls threading
the cache, where `makes` lists what each call's `create_engine` would
do. -/
def runCalls (makes : List (Except String Engine))
    (cache : Option (Option Engine)) : List (Option Engine) :=
  match makes with
  | [] => []
  | m :: ms =>
      let rc := init_connection m cache
      rc.1 :: runCalls ms rc.2

/-- A fetched event whose purchase payload parses. -/
def evGood : Event :=
  { geo_city := "Haifa", derived_tstamp := ⟨2024, 6, 1⟩,
    event_name := "in_app_purchase",
    contexts := some [⟨"u1", "alice"⟩],
    purchase_event := some (PayloadText.wellFormed
      [("item_name", JLit.str "sword"), ("iap_price", JLit.num 2)]) }

/-- A fetched event whose purchase payload is non-empty unparsable text. -/
def evBad : Event :=
  { geo_city := "Haifa", derived_tstamp := ⟨2024, 6, 2⟩,
    event_name := "in_app_purchase",
    contexts := some [⟨"u1", "alice"⟩],
    purchase_event := some (PayloadText.malformed "not json") }

/-- The key list of a decoded payload object. -/
def keysOf (p : Payload) : List String := p.map Prod.fst

/-- Concrete heterogeneous payload rows. -/
def plsW : List Payload :=
  [[("a", JLit.num 1), ("b", JLit.str "x")],
   [("b", JLit.boolean true), ("c", JLit.jnull)]]

/-- A concrete one-row result set with a price-named payload key. -/
def resW : List UserPurchaseRow :=
  [{ purchase_date := ⟨2024, 6, 1⟩, user_name := "alice",
     purchase_data := PayloadText.wellFormed
       [("iap_price", JLit.num 2), ("item_name", JLit.str "sword")],
     daily_purchase_amount := 2 }]

/-- The decoded payloads of `resW`. -/
def plsW2 : List Payload :=
  [[("iap_price", JLit.num 2), ("item_name", JLit.str "sword")]]

/-- A one-row result whose payload collides on the key purchase_date. -/
def resX : List UserPurchaseRow :=
  [{ purchase_date := ⟨2024, 7, 2⟩, user_name := "bob",
     purchase_data := PayloadText.wellFormed
       [("purchase_date", JLit.str "1999-01-01"), ("iap_price", JLit.num 5)],
     daily_purchase_amount := 5 }]

/-- The decoded payloads of `resX`. -/
def plsX : List Payload :=
  [[("purchase_date", JLit.str "1999-01-01"), ("iap_price", JLit.num 5)]]

/-- The order "sorted non-increasing in number_of_users". -/
abbrev usersGE (a b : CityStats) : Prop :=
  b.number_of_users ≤ a.number_of_users

lemma mem_insertDesc {x a : CityStats} {l : List CityStats} :
    a ∈ insertDesc x l ↔ a = x ∨ a ∈ l := by
  induction l with
  | nil => simp [insertDesc]
  | cons y ys ih =>
    by_cases h : y.number_of_users ≤ x.number_of_users
    · simp [insertDesc, h]
    · simp [insertDesc, h, ih]
      tauto

lemma pairwise_insertDesc {x : CityStats} {l : List CityStats}
    (hl : l.Pairwise usersGE) : (insertDesc x l).Pairwise usersGE := by
  induction l with
  | nil => simp [insertDesc]
  | cons y ys ih =>
    rcases List.pairwise_cons.mp hl with ⟨hy, hys⟩
    by_cases h : y.number_of_users ≤ x.number_of_users
    · rw [insertDesc, if_pos h]
      refine List.pairwise_cons.mpr ⟨?_, hl⟩
      intro z hz
      rcases List.mem_cons.mp hz with rfl | hz
      · exact h
      · exact le_trans (hy z hz) h
    · rw [insertDesc, if_neg h]
      refine List.pairwise_cons.mpr ⟨?_, ih hys⟩
      intro z hz
      rcases mem_insertDesc.mp hz with rfl | hz
      · exact le_of_not_le h
      · exact hy z hz

lemma sortDesc_pairwise (l : List CityStats) :
    (sortByUsersDesc l).Pairwise usersGE := by
  induction l with
  | nil => simp [sortByUsersDesc]
  | cons x xs ih => exact pairwise_insertDesc ih

lemma sortDesc_of_pairwise {l : List CityStats} (h : l.Pairwise usersGE) :
    sortByUsersDesc l = l := by
  induction l with
  | nil => rfl
  | cons x xs ih =>
    rcases List.pairwise_cons.mp h with ⟨hx, hxs⟩
    rw [sortByUsersDesc, ih hxs]
    cases xs with
    | nil => rfl
    | cons y ys =>
      have hy : y.number_of_users ≤ x.number_of_users :=
        hx y (List.mem_cons_self _ _)
      rw [insertDesc, if_pos hy]

lemma load_data_pairwise (events : List Event) (sd ed : Date) :
    (load_data events sd ed).Pairwise usersGE :=
  (sortDesc_pairwise _).sublist (List.take_sublist _ _)

lemma load_data_length_le (events : List Event) (sd ed : Date) :
    (load_data events sd ed).length ≤ 10 := by
  rw [load_data, List.length_take]
  omega

/-- C1: every CityStats sequence returned by the city-statistics query
`load_data` has length at most 10 and is sorted non-increasing in
`number_of_users`. -/
theorem C1_city_stats_top10_sorted (events : List Event) (sd ed : Date) :
    (load_data events sd ed).length ≤ 10 ∧
    (load_data events sd ed).Pairwise
      (fun a b => b.number_of_users ≤ a.number_of_users) :=
  ⟨load_data_length_le events sd ed, load_data_pairwise events sd ed⟩

/-- C9: the bar chart's `nlargest(10, 'number_of_users')` recomputation is
redundant: on any table returned by `load_data` (already at most 10 rows,
sorted descending by user count) it returns exactly the input table, so
the bar chart input equals the query result. -/
theorem C9_top10_recompute_redundant (events : List Event) (sd ed : Date) :
    nlargestUsers 10 (load_data events sd ed) = load_data events sd ed := by
  rw [nlargestUsers, sortDesc_of_pairwise (load_data_pairwise events sd ed),
    List.take_of_length_le (load_data_length_le events sd ed)]

lemma Date.le_trans {a b c : Date} (h1 : Date.le a b = true)
    (h2 : Date.le b c = true) : Date.le a c = true := by
  simp only [Date.le, Bool.or_eq_true, Bool.and_eq_true, decide_eq_true_eq] at h1 h2 ⊢
  omega

lemma firstSeen_nil {α : Type} [DecidableEq α] :
    firstSeen ([] : List α) = [] := rfl

/-- C6: for a date range with start_date > end_date (the program applies no
upfront validation), the city-statistics query returns an empty result set
without raising, and the General Statistics tab renders its explicit
no-data message. -/
theorem C6_inverted_range_empty (events : List Event) (sd ed : Date)
    (h : Date.le sd ed = false) :
    load_data events sd ed = [] ∧
    tab1Run ⟨events, none⟩ sd ed = Except.ok GeneralView.noData := by
  have hf : events.filter (cityFilter sd ed) = [] := by
    rw [List.filter_eq_nil_iff]
    intro e _ hc
    simp only [cityFilter, Bool.and_eq_true] at hc
    have := Date.le_trans hc.1.1 hc.1.2
    rw [h] at this
    exact Bool.false_ne_true this
  have hl : load_data events sd ed = [] := by
    simp [load_data, cityGroups, hf, firstSeen_nil, sortByUsersDesc]
  refine ⟨hl, ?_⟩
  simp [tab1Run, read_sql_city, hl, Except.map]

/-- C7: a user_id matching no warehouse context entry makes the
user-purchase query return the empty sequence (not an error), and the
Events tab renders its "not found" warning instead of charts/tables. -/
theorem C7_unknown_user_not_found (events : List Event) (uid : String)
    (hu : uid ≠ "")
    (h : ∀ e ∈ events, ∀ f ∈ e.contexts.getD [], f.uuid ≠ uid) :
    fetch_user_purchases events uid = [] ∧
    tab2Handler ⟨events, none⟩ uid = EventsView.notFound := by
  have hm : (((events.map (fun e =>
      (e.contexts.getD []).map (fun f => (e, f)))).flatten).filter
      (fun ef => ef.2.uuid == uid && ef.1.event_name == "in_app_purchase" &&
        ef.1.purchase_event.isSome)) = [] := by
    rw [List.filter_eq_nil_iff]
    intro ef hef hc
    simp only [List.mem_flatten, List.mem_map] at hef
    obtain ⟨l, ⟨e', he', rfl⟩, hmem⟩ := hef
    obtain ⟨f', hf', rfl⟩ := List.mem_map.mp hmem
    simp only [Bool.and_eq_true, beq_iff_eq] at hc
    exact h e' he' f' hf' hc.1.1
  have hfe : fetch_user_purchases events uid = [] := by
    simp [fetch_user_purchases, hm, firstSeen_nil, sortByDateAsc]
  have hb : tab2Body ⟨events, none⟩ uid = Except.ok EventsView.notFound := by
    simp [tab2Body, read_sql_purchases, hfe, Bind.bind, Except.bind, Pure.pure, Except.pure]
  refine ⟨hfe, ?_⟩
  simp [tab2Handler, hu, hb]

/-- Witness for C7: a concrete warehouse with one context entry whose uuid
differs from the queried id. -/
theorem C7_witness :
    ("unknown-id" ≠ "" ∧
      ∀ e ∈ [evA], ∀ f ∈ e.contexts.getD [], f.uuid ≠ "unknown-id") ∧
    (fetch_user_purchases [evA] "unknown-id" = [] ∧
      tab2Handler ⟨[evA], none⟩ "unknown-id" = EventsView.notFound) :=
  ⟨⟨by decide, by decide⟩,
    C7_unknown_user_not_found [evA] "unknown-id" (by decide) (by decide)⟩

/-- C2 as stated is false: a warehouse error raised while the General
Statistics interaction runs `load_data` is not turned into a user-visible
message by the program — lines 78-79 of src/main.py have no try/except,
so the exception (here, the engine failing with "connection refused")
propagates out of the handler uncaught. -/
theorem C2_counterexample :
    tab1Run ⟨[], some "connection refused"⟩ ⟨2024, 1, 1⟩ ⟨2024, 1, 7⟩ =
      Except.error "connection refused" := rfl

/-- C2 amended: only the Events interaction wraps its query in try/except,
surfacing every warehouse/query error as the st.error message of line 205;
an error during the General Statistics query propagates out of the
application code uncaught (its fate is left to the hosting framework). -/
theorem C2_amended_error_surfacing :
    (∀ (eng : Engine) (uid m : String), uid ≠ "" → eng.failure = some m →
      tab2Handler eng uid =
        EventsView.errorMsg ("Error executing query: " ++ m)) ∧
    (∀ (eng : Engine) (sd ed : Date) (m : String), eng.failure = some m →
      tab1Run eng sd ed = Except.error m) := by
  constructor
  · intro eng uid m hu hf
    simp [tab2Handler, hu, tab2Body, read_sql_purchases, hf, Bind.bind,
      Except.bind]
  · intro eng sd ed m hf
    simp [tab1Run, read_sql_city, hf, Except.map]

/-- Witness for the amended C2 at a concrete failing engine. -/
theorem C2_witness :
    tab2Handler ⟨[], some "timeout"⟩ "u1" =
      EventsView.errorMsg "Error executing query: timeout" ∧
    tab1Run ⟨[], some "timeout"⟩ ⟨2024, 1, 1⟩ ⟨2024, 1, 2⟩ =
      Except.error "timeout" :=
  ⟨C2_amended_error_surfacing.1 ⟨[], some "timeout"⟩ "u1" "timeout"
      (by decide) rfl,
    C2_amended_error_surfacing.2 ⟨[], some "timeout"⟩ ⟨2024, 1, 1⟩
      ⟨2024, 1, 2⟩ "timeout" rfl⟩

lemma runCalls_cached (makes : List (Except String Engine))
    (v : Option Engine) : runCalls makes (some v) = makes.map (fun _ => v) := by
  induction makes with
  | nil => rfl
  | cons m ms ih => simp [runCalls, init_connection, ih]

/-- C8: after a successful first construction, every later
`init_connection` call returns the same memoized engine, whatever
constructing anew would now do — the connection is built exactly once per
process. -/
theorem C8_connection_memoized (make0 : Except String Engine) (eng : Engine)
    (h : make0 = Except.ok eng) (makes : List (Except String Engine)) :
    (init_connection make0 none).1 = some eng ∧
    runCalls makes (init_connection make0 none).2 =
      makes.map (fun _ => some eng) := by
  subst h
  exact ⟨rfl, runCalls_cached makes (some eng)⟩

/-- Witness for C8: a successful first construction followed by two calls,
one of which would now fail to construct — both still return the memoized
engine. -/
theorem C8_witness :
    (init_connection (Except.ok ⟨[evA], none⟩) none).1 = some ⟨[evA], none⟩ ∧
    runCalls [Except.error "down", Except.ok ⟨[], some "other"⟩]
        (init_connection (Except.ok ⟨[evA], none⟩) none).2 =
      [some ⟨[evA], none⟩, some ⟨[evA], none⟩] :=
  C8_connection_memoized (Except.ok ⟨[evA], none⟩) ⟨[evA], none⟩ rfl
    [Except.error "down", Except.ok ⟨[], some "other"⟩]

/-- C3 fails on the code (code bug per the spec's stated intent): with a
non-empty result set whose second row carries malformed purchase_data,
the line-163 transform raises instead of falling back to an empty object,
and the whole Events render — including the already-fetched well-formed
row — is replaced by the catch-all error message: no detail table is
produced. -/
theorem C3_malformed_json_aborts_render :
    fetch_user_purchases [evGood, evBad] "u1" ≠ [] ∧
    (fetch_user_purchases [evGood, evBad] "u1").mapM
        (fun r => loads_or_empty r.purchase_data) =
      Except.error "json.loads: not json" ∧
    tab2Handler ⟨[evGood, evBad], none⟩ "u1" =
      EventsView.errorMsg "Error executing query: json.loads: not json" := by
  refine ⟨by decide, rfl, rfl⟩

lemma dfColumns_eq_foldl (payloads : List Payload) :
    dfColumns payloads =
      ((payloads.map keysOf).flatten).foldl
        (fun a k => if k ∈ a then a else a ++ [k]) [] := by
  rw [dfColumns]
  suffices h : ∀ acc : List String,
      payloads.foldl (fun acc p =>
        p.foldl (fun a kv => if kv.1 ∈ a then a else a ++ [kv.1]) acc) acc =
      ((payloads.map keysOf).flatten).foldl
        (fun a k => if k ∈ a then a else a ++ [k]) acc from h []
  intro acc
  induction payloads generalizing acc with
  | nil => rfl
  | cons p ps ih =>
    simp only [List.map_cons, List.flatten_cons, List.foldl_append,
      List.foldl_cons]
    rw [ih]
    congr 1
    rw [keysOf, List.foldl_map]

lemma firstSeenAux_congr {α : Type} [DecidableEq α] (ks : List α)
    (acc1 acc2 : List α) (h : ∀ x, x ∈ acc1 ↔ x ∈ acc2) :
    firstSeenAux acc1 ks = firstSeenAux acc2 ks := by
  induction ks generalizing acc1 acc2 with
  | nil => rfl
  | cons k ks ih =>
    simp only [firstSeenAux]
    by_cases hk : k ∈ acc1
    · rw [if_pos hk, if_pos ((h k).mp hk)]
      exact ih _ _ h
    · rw [if_neg hk, if_neg (fun hx => hk ((h k).mpr hx))]
      rw [ih (k :: acc1) (k :: acc2) ?_]
      intro x
      simp [List.mem_cons, h x]

lemma foldl_insKey (ks : List String) (acc : List String) :
    ks.foldl (fun a k => if k ∈ a then a else a ++ [k]) acc =
      acc ++ firstSeenAux acc ks := by
  induction ks generalizing acc with
  | nil => simp [firstSeenAux]
  | cons k ks ih =>
    simp only [List.foldl_cons, firstSeenAux]
    by_cases hk : k ∈ acc
    · rw [if_pos hk, if_pos hk, ih]
    · rw [if_neg hk, if_neg hk, ih,
        firstSeenAux_congr ks (acc ++ [k]) (k :: acc)
          (by intro x; simp [List.mem_append, List.mem_cons, or_comm]),
        List.append_assoc, List.singleton_append]

lemma mem_foldl_insKey (ks : List String) (acc : List String) (a : String) :
    a ∈ ks.foldl (fun b k => if k ∈ b then b else b ++ [k]) acc ↔
      a ∈ acc ∨ a ∈ ks := by
  induction ks generalizing acc with
  | nil => simp
  | cons k ks ih =>
    by_cases hk : k ∈ acc
    · simp only [List.foldl_cons, if_pos hk, ih, List.mem_cons]
      constructor
      · rintro (h | h)
        · exact Or.inl h
        · exact Or.inr (Or.inr h)
      · rintro (h | rfl | h)
        · exact Or.inl h
        · exact Or.inl hk
        · exact Or.inr h
    · simp only [List.foldl_cons, if_neg hk, ih, List.mem_append,
        List.mem_singleton, List.mem_cons]
      tauto

lemma lookup_map_pair {β : Type} (cs : List String) (g : String → β)
    (k : String) (hk : k ∈ cs) :
    (cs.map (fun c => (c, g c))).lookup k = some (g k) := by
  induction cs with
  | nil => cases hk
  | cons c cs ih =>
    by_cases hkc : k = c
    · subst hkc
      simp [List.lookup]
    · have hne : (k == c) = false := by simp [hkc]
      rcases List.mem_cons.mp hk with rfl | hk'
      · simp at hne
      · simp [List.lookup, hne, ih hk']

lemma lookup_eq_none_of_not_mem_keys (p : Payload) (k : String)
    (h : k ∉ keysOf p) : p.lookup k = none := by
  induction p with
  | nil => rfl
  | cons kv rest ih =>
    cases kv with
    | mk k1 v1 =>
      simp only [keysOf, List.map_cons, List.mem_cons, not_or] at h
      have hne : (k == k1) = false := by simp [h.1]
      simp only [List.lookup, hne]
      exact ih h.2

lemma map_getElem?_of {α β : Type} (f : α → β) (l : List α) (i : Nat)
    (a : α) (h : l[i]? = some a) : (l.map f)[i]? = some (f a) := by
  induction l generalizing i with
  | nil => simp at h
  | cons x xs ih =>
    cases i with
    | zero =>
      simp only [List.getElem?_cons_zero, Option.some.injEq] at h
      simp [h]
    | succ n =>
      simp only [List.getElem?_cons_succ] at h
      simp only [List.map_cons, List.getElem?_cons_succ]
      exact ih n h

/-- C4: on the frame of line 166 of src/main.py, built from payload rows
with heterogeneous key sets, the payload-derived column set is exactly
the union of all observed keys in first-seen order, and a row lacking a
given column's key gets a NaN cell there. -/
theorem C4_flatten_union_columns (payloads : List Payload) :
    (dfFromRecords payloads).columns =
      firstSeen ((payloads.map keysOf).flatten) ∧
    (∀ k, k ∈ (dfFromRecords payloads).columns ↔
      ∃ p ∈ payloads, k ∈ keysOf p) ∧
    (∀ (i : Nat) (p : Payload), payloads[i]? = some p →
      ∀ k ∈ (dfFromRecords payloads).columns, k ∉ keysOf p →
        (dfFromRecords payloads).cell i k = some CellV.na) := by
  have hcols : (dfFromRecords payloads).columns = dfColumns payloads := rfl
  refine ⟨?_, ?_, ?_⟩
  · rw [hcols, dfColumns_eq_foldl, foldl_insKey, List.nil_append]
    rfl
  · intro k
    rw [hcols, dfColumns_eq_foldl, mem_foldl_insKey]
    simp [List.mem_flatten, List.mem_map]
  · intro i p hp k hk hkp
    have hrow : (dfFromRecords payloads).rows[i]? =
        some ((dfColumns payloads).map (fun c =>
          (c, match p.lookup c with
              | some v => CellV.jv v
              | none => CellV.na))) :=
      map_getElem?_of _ payloads i p hp
    rw [Frame.cell, hrow]
    simp only [Option.getD_some]
    rw [lookup_map_pair _ _ k (hcols ▸ hk),
      lookup_eq_none_of_not_mem_keys p k hkp]

/-- Witness for C4: on the concrete rows, the second row lacks key "a",
which is a column, and its cell there is NaN. -/
theorem C4_witness :
    plsW[1]? = some [("b", JLit.boolean true), ("c", JLit.jnull)] ∧
    "a" ∈ (dfFromRecords plsW).columns ∧
    "a" ∉ keysOf [("b", JLit.boolean true), ("c", JLit.jnull)] ∧
    (dfFromRecords plsW).cell 1 "a" = some CellV.na :=
  ⟨rfl, by decide, by decide,
    (C4_flatten_union_columns plsW).2.2 1
      [("b", JLit.boolean true), ("c", JLit.jnull)] rfl "a"
      (by decide) (by decide)⟩

lemma lookup_dictSet_self (d : List (String × ColConfig)) (k : String)
    (v : ColConfig) : (dictSet d k v).lookup k = some v := by
  induction d with
  | nil => simp [dictSet, List.lookup]
  | cons kv rest ih =>
    obtain ⟨k1, v1⟩ := kv
    by_cases h : k1 = k
    · simp [dictSet, h, List.lookup]
    · have hne : (k == k1) = false := by
        simp only [beq_eq_false_iff_ne, ne_eq]
        exact fun he => h he.symm
      simp [dictSet, h, List.lookup, hne, ih]

lemma lookup_dictSet_ne (d : List (String × ColConfig)) (k : String)
    (v : ColConfig) (k' : String) (h : k' ≠ k) :
    (dictSet d k v).lookup k' = d.lookup k' := by
  induction d with
  | nil =>
    have hne : (k' == k) = false := by simp [h]
    simp [dictSet, List.lookup, hne]
  | cons kv rest ih =>
    obtain ⟨k1, v1⟩ := kv
    by_cases h1 : k1 = k
    · subst h1
      have hne : (k' == k1) = false := by simp [h]
      simp [dictSet, List.lookup, hne]
    · by_cases h2 : k' = k1
      · subst h2
        simp [dictSet, h1, List.lookup]
      · have hne : (k' == k1) = false := by simp [h2]
        simp [dictSet, h1, List.lookup, hne, ih]

lemma lookup_config_fold (ks : List String) (d : List (String × ColConfig))
    (g : String → ColConfig) (c : String) :
    (ks.foldl (fun cfg k => dictSet cfg k (g k)) d).lookup c =
      if c ∈ ks then some (g c) else d.lookup c := by
  induction ks generalizing d with
  | nil => simp
  | cons k ks ih =>
    simp only [List.foldl_cons, ih]
    by_cases hc : c ∈ ks
    · simp [hc, List.mem_cons]
    · by_cases hck : c = k
      · subst hck
        simp [hc, lookup_dictSet_self]
      · simp [hc, hck, List.mem_cons, lookup_dictSet_ne _ _ _ _ hck]

/-- C5: in the flattened detail table, every column whose name contains
"price" or "amount" (case-insensitively) gets the currency NumberColumn
config with format "$.2f" (a currency prefix and exactly two decimals),
and every other column's effective config carries no number format
(default formatting; the two fixed columns only carry a display label). -/
theorem C5_price_amount_currency_format (results : List UserPurchaseRow)
    (payloads : List Payload) (c : String)
    (hc : c ∈ (detailTable results payloads).columns) :
    (priceLike c = true →
      configAt (detailTable results payloads).columns c =
        ColConfig.number (displayTitle c) "$.2f") ∧
    (priceLike c = false →
      fmtOf (configAt (detailTable results payloads).columns c) = none) := by
  set cols := (detailTable results payloads).columns with hcolsdef
  have hfold : (column_config cols).lookup c =
      if c ∈ price_columns cols
      then some (ColConfig.number (displayTitle c) "$.2f")
      else ([("purchase_date", ColConfig.label "Date"),
             ("user_name", ColConfig.label "User Name")]).lookup c := by
    rw [column_config]
    exact lookup_config_fold (price_columns cols) _
      (fun k => ColConfig.number (displayTitle k) "$.2f") c
  constructor
  · intro hp
    have hmem : c ∈ price_columns cols := List.mem_filter.mpr ⟨hc, hp⟩
    rw [configAt, hfold, if_pos hmem]
    rfl
  · intro hp
    have hmem : c ∉ price_columns cols := by
      intro hin
      have hpr := (List.mem_filter.mp hin).2
      rw [hp] at hpr
      exact Bool.false_ne_true hpr
    rw [configAt, hfold, if_neg hmem]
    by_cases h1 : c = "purchase_date"
    · subst h1
      rfl
    · by_cases h2 : c = "user_name"
      · subst h2
        rfl
      · have hb1 : (c == "purchase_date") = false := by simp [h1]
        have hb2 : (c == "user_name") = false := by simp [h2]
        simp [List.lookup, hb1, hb2, fmtOf]

/-- Witness for C5: the concrete column "iap_price" of the concrete detail
table is price-like and gets the "$.2f" currency NumberColumn. -/
theorem C5_witness :
    ("iap_price" ∈ (detailTable resW plsW2).columns ∧
      priceLike "iap_price" = true) ∧
    configAt (detailTable resW plsW2).columns "iap_price" =
      ColConfig.number (displayTitle "iap_price") "$.2f" :=
  ⟨⟨by decide, by decide⟩,
    (C5_price_amount_currency_format resW plsW2 "iap_price" (by decide)).1
      (by decide)⟩

lemma lookup_setCell_self (row : List (String × CellV)) (c : String)
    (v : CellV) : (setCell row c v).lookup c = some v := by
  induction row with
  | nil => simp [setCell, List.lookup]
  | cons kv rest ih =>
    obtain ⟨k1, v1⟩ := kv
    by_cases h : k1 = c
    · simp [setCell, h, List.lookup]
    · have hne : (c == k1) = false := by
        simp only [beq_eq_false_iff_ne, ne_eq]
        exact fun he => h he.symm
      simp [setCell, h, List.lookup, hne, ih]

lemma lookup_setCell_ne (row : List (String × CellV)) (c : String)
    (v : CellV) (c' : String) (h : c' ≠ c) :
    (setCell row c v).lookup c' = row.lookup c' := by
  induction row with
  | nil =>
    have hne : (c' == c) = false := by simp [h]
    simp [setCell, List.lookup, hne]
  | cons kv rest ih =>
    obtain ⟨k1, v1⟩ := kv
    by_cases h1 : k1 = c
    · subst h1
      have hne : (c' == k1) = false := by simp [h]
      simp [setCell, List.lookup, hne]
    · by_cases h2 : c' = k1
      · subst h2
        simp [setCell, h1, List.lookup]
      · have hne : (c' == k1) = false := by simp [h2]
        simp [setCell, h1, List.lookup, hne, ih]

lemma zipWith_getElem?_of {α β γ : Type} (f : α → β → γ) (l1 : List α)
    (l2 : List β) (i : Nat) (a : α) (b : β)
    (h1 : l1[i]? = some a) (h2 : l2[i]? = some b) :
    (List.zipWith f l1 l2)[i]? = some (f a b) := by
  induction l1 generalizing l2 i with
  | nil => simp at h1
  | cons x xs ih =>
    cases l2 with
    | nil => simp at h2
    | cons y ys =>
      cases i with
      | zero =>
        simp only [List.getElem?_cons_zero, Option.some.injEq] at h1 h2
        simp [List.zipWith_cons_cons, h1, h2]
      | succ n =>
        simp only [List.getElem?_cons_succ] at h1 h2
        simp only [List.zipWith_cons_cons, List.getElem?_cons_succ]
        exact ih ys n h1 h2

lemma lookup_rowMap_self (row : List (String × CellV)) (c : String)
    (f : CellV → CellV) :
    (row.map (fun kv => if kv.1 = c then (kv.1, f kv.2) else kv)).lookup c =
      (row.lookup c).map f := by
  induction row with
  | nil => rfl
  | cons kv rest ih =>
    obtain ⟨k1, v1⟩ := kv
    simp only [List.map_cons]
    by_cases h : k1 = c
    · subst h
      rw [if_pos rfl]
      simp [List.lookup]
    · rw [if_neg h]
      have hne : (c == k1) = false := by
        simp only [beq_eq_false_iff_ne, ne_eq]
        exact fun he => h he.symm
      simp [List.lookup, hne, ih]

lemma lookup_rowMap_ne (row : List (String × CellV)) (c c' : String)
    (f : CellV → CellV) (h : c' ≠ c) :
    (row.map (fun kv => if kv.1 = c then (kv.1, f kv.2) else kv)).lookup c' =
      row.lookup c' := by
  induction row with
  | nil => rfl
  | cons kv rest ih =>
    obtain ⟨k1, v1⟩ := kv
    simp only [List.map_cons]
    by_cases h1 : k1 = c
    · subst h1
      rw [if_pos rfl]
      have hne : (c' == k1) = false := by simp [h]
      simp [List.lookup, hne, ih]
    · rw [if_neg h1]
      by_cases h2 : c' = k1
      · subst h2
        simp [List.lookup]
      · have hne : (c' == k1) = false := by simp [h2]
        simp [List.lookup, hne, ih]

lemma getElem?_lt_length {α : Type} (l : List α) (i : Nat) (a : α)
    (h : l[i]? = some a) : i < l.length := by
  induction l generalizing i with
  | nil => simp at h
  | cons x xs ih =>
    cases i with
    | zero => simp
    | succ n =>
      simp only [List.getElem?_cons_succ] at h
      have := ih n h
      simp only [List.length_cons]
      omega

lemma exists_getElem?_of_lt {α : Type} (l : List α) (i : Nat)
    (h : i < l.length) : ∃ a, l[i]? = some a := by
  induction l generalizing i with
  | nil => simp at h
  | cons x xs ih =>
    cases i with
    | zero => exact ⟨x, by simp⟩
    | succ n =>
      simp only [List.length_cons, Nat.succ_lt_succ_iff] at h
      obtain ⟨a, ha⟩ := ih n h
      exact ⟨a, by simpa using ha⟩

lemma detailTable_cell_fixed (results : List UserPurchaseRow)
    (payloads : List Payload) (h : results.length = payloads.length)
    (j : Nat) (r : UserPurchaseRow) (hj : results[j]? = some r) :
    (detailTable results payloads).cell j "purchase_date" =
      some (CellV.sv r.purchase_date.iso) ∧
    (detailTable results payloads).cell j "user_name" =
      some (CellV.sv r.user_name) := by
  have hjp : j < payloads.length := h ▸ getElem?_lt_length results j r hj
  obtain ⟨p, hp⟩ := exists_getElem?_of_lt payloads j hjp
  have hrow0 : (dfFromRecords payloads).rows[j]? =
      some ((dfColumns payloads).map (fun c =>
        (c, match p.lookup c with
            | some v => CellV.jv v
            | none => CellV.na))) :=
    map_getElem?_of _ payloads j p hp
  have hd : (results.map (fun r => CellV.dt r.purchase_date))[j]? =
      some (CellV.dt r.purchase_date) := map_getElem?_of _ results j r hj
  have hn : (results.map (fun r => CellV.sv r.user_name))[j]? =
      some (CellV.sv r.user_name) := map_getElem?_of _ results j r hj
  have h1 : ((dfFromRecords payloads).setColumn "purchase_date"
      (results.map (fun r => CellV.dt r.purchase_date))).rows[j]? =
      some (setCell ((dfColumns payloads).map (fun c =>
        (c, match p.lookup c with
            | some v => CellV.jv v
            | none => CellV.na))) "purchase_date" (CellV.dt r.purchase_date)) :=
    zipWith_getElem?_of _ _ _ j _ _ hrow0 hd
  have h2 : (detailBase results payloads).rows[j]? =
      some (setCell (setCell ((dfColumns payloads).map (fun c =>
        (c, match p.lookup c with
            | some v => CellV.jv v
            | none => CellV.na))) "purchase_date" (CellV.dt r.purchase_date))
        "user_name" (CellV.sv r.user_name)) :=
    zipWith_getElem?_of _ _ _ j _ _ h1 hn
  have h3 : ((detailBase results payloads).selectCols
      (detailCols results payloads)).rows[j]? =
      some ((detailCols results payloads).map (fun c =>
        (c, ((setCell (setCell ((dfColumns payloads).map (fun c =>
          (c, match p.lookup c with
              | some v => CellV.jv v
              | none => CellV.na))) "purchase_date"
            (CellV.dt r.purchase_date)) "user_name"
            (CellV.sv r.user_name)).lookup c).getD CellV.na))) :=
    map_getElem?_of _ _ j _ h2
  have h4 : (detailTable results payloads).rows[j]? =
      some (((detailCols results payloads).map (fun c =>
        (c, ((setCell (setCell ((dfColumns payloads).map (fun c =>
          (c, match p.lookup c with
              | some v => CellV.jv v
              | none => CellV.na))) "purchase_date"
            (CellV.dt r.purchase_date)) "user_name"
            (CellV.sv r.user_name)).lookup c).getD CellV.na))).map
        (fun kv => if kv.1 = "purchase_date"
          then (kv.1, fmtDateCell kv.2) else kv)) :=
    map_getElem?_of _ _ j _ h3
  have hpd : "purchase_date" ∈ detailCols results payloads := by
    simp [detailCols]
  have hun : "user_name" ∈ detailCols results payloads := by
    simp [detailCols]
  constructor
  · rw [Frame.cell, h4]
    simp only [Option.getD_some]
    rw [lookup_rowMap_self, lookup_map_pair _ _ _ hpd,
      lookup_setCell_ne _ _ _ _ (by decide),
      lookup_setCell_self]
    rfl
  · rw [Frame.cell, h4]
    simp only [Option.getD_some]
    rw [lookup_rowMap_ne _ _ _ _ (by decide), lookup_map_pair _ _ _ hun,
      lookup_setCell_self]
    rfl

lemma detailCols_count (results : List UserPurchaseRow)
    (payloads : List Payload) :
    (detailCols results payloads).count "purchase_date" = 1 ∧
    (detailCols results payloads).count "user_name" = 1 := by
  have hpd : "purchase_date" ∉ (detailBase results payloads).columns.filter
      (fun c => decide (c ∉ ["purchase_date", "user_name"])) := by
    intro hmem
    have hh := (List.mem_filter.mp hmem).2
    simp at hh
  have hun : "user_name" ∉ (detailBase results payloads).columns.filter
      (fun c => decide (c ∉ ["purchase_date", "user_name"])) := by
    intro hmem
    have hh := (List.mem_filter.mp hmem).2
    simp at hh
  constructor
  · rw [detailCols, List.count_append, List.count_eq_zero.mpr hpd]
    decide
  · rw [detailCols, List.count_append, List.count_eq_zero.mpr hun]
    decide

/-- C10: when a payload carries a key named "purchase_date" or
"user_name", the flattened detail table does not show the payload value as
a separate column: each of the two names is exactly one column (at the
front), and every row's cell there holds the fixed query value — the
formatted query date and the query user name — so the payload values for
those keys are silently lost. -/
theorem C10_payload_key_collision_overwritten
    (results : List UserPurchaseRow) (payloads : List Payload)
    (h : results.length = payloads.length)
    (i : Nat) (p : Payload) (hp : payloads[i]? = some p)
    (hasKey : "purchase_date" ∈ keysOf p ∨ "user_name" ∈ keysOf p) :
    ((detailTable results payloads).columns.count "purchase_date" = 1 ∧
      (detailTable results payloads).columns.count "user_name" = 1) ∧
    ∀ (j : Nat) (r : UserPurchaseRow), results[j]? = some r →
      (detailTable results payloads).cell j "purchase_date" =
        some (CellV.sv r.purchase_date.iso) ∧
      (detailTable results payloads).cell j "user_name" =
        some (CellV.sv r.user_name) := by
  refine ⟨detailCols_count results payloads, ?_⟩
  intro j r hj
  exact detailTable_cell_fixed results payloads h j r hj

/-- Witness for C10: on the concrete colliding row, purchase_date is one
column and its cell holds the query's formatted date, not the payload's
"1999-01-01" string. -/
theorem C10_witness :
    (resX.length = plsX.length ∧
      "purchase_date" ∈ keysOf
        [("purchase_date", JLit.str "1999-01-01"), ("iap_price", JLit.num 5)]) ∧
    ((detailTable resX plsX).columns.count "purchase_date" = 1 ∧
      (detailTable resX plsX).columns.count "user_name" = 1) ∧
    ((detailTable resX plsX).cell 0 "purchase_date" =
        some (CellV.sv (Date.iso ⟨2024, 7, 2⟩)) ∧
      (detailTable resX plsX).cell 0 "user_name" =
        some (CellV.sv "bob")) :=
  ⟨⟨rfl, by decide⟩,
    (C10_payload_key_collision_overwritten resX plsX rfl 0
      [("purchase_date", JLit.str "1999-01-01"), ("iap_price", JLit.num 5)]
      rfl (Or.inl (by decide))).1,
    (C10_payload_key_collision_overwritten resX plsX rfl 0
      [("purchase_date", JLit.str "1999-01-01"), ("iap_price", JLit.num 5)]
      rfl (Or.inl (by decide))).2 0
      { purchase_date := ⟨2024, 7, 2⟩, user_name := "bob",
        purchase_data := PayloadText.wellFormed
          [("purchase_date", JLit.str "1999-01-01"),
           ("iap_price", JLit.num 5)],
        daily_purchase_amount := 5 } rfl⟩

/-- Witness for C6 at a concrete inverted date range over a non-empty
warehouse. -/
theorem C6_witness :
    Date.le ⟨2024, 5, 10⟩ ⟨2024, 5, 3⟩ = false ∧
    (load_data [evA] ⟨2024, 5, 10⟩ ⟨2024, 5, 3⟩ = [] ∧
      tab1Run ⟨[evA], none⟩ ⟨2024, 5, 10⟩ ⟨2024, 5, 3⟩ =
        Except.ok GeneralView.noData) :=
  ⟨by decide, C6_inverted_range_empty [evA] _ _ (by decide)⟩

end MatchMasters
